import Mathlib

/-!
# Verification of `pyratk/acquisition/virtual_daq.py`

A shallow embedding of the `VirtualDAQ` playback engine.  Python machine
state (the attributes of the `VirtualDAQ` object) is a record, every
method is a state transformer, and Python exceptions are explicit values:
a method returns the state at the moment it finishes (or raises) together
with an error marker, since in Python the object's in-place mutations
survive an escaping exception.

Modelling conventions:
* Python ints are `ℤ`; Python's `%` with a positive modulus agrees with
  `Int.emod`, and `% 0` / `/ 0` raise `ZeroDivisionError`, which the
  helpers `pymod` and `pyltone` make explicit.
* Python floats are modelled exactly as `ℚ` (the comparisons the claims
  touch involve only small integer ratios, where float arithmetic is
  exact).
* Chunks are opaque payloads: the embedding is parametric in a type `α`.
* `h5py` dataset indexing supports negative wrap-around indices and
  raises `IndexError` outside `[-len, len)`; `dsGet` mirrors this.
* `print` output is captured in a `log` field so that "the error is
  reported" is a statement about the model.
* Truthiness of `self.ds` (`if (self.ds)`): the field starts as `None`
  (falsy); an open `h5py` dataset object is truthy, so the test is
  `Option.isSome`.
-/

namespace VirtualDAQ

/-- Python exception classes reachable in this module. -/
inductive PyErr where
  | indexError
  | valueError
  | runtimeError
  | typeError
  | keyError
  | zeroDivisionError
  deriving DecidableEq, Repr

deriving instance DecidableEq for Except

/-- The attribute record of an `h5py` dataset (`ds.attrs`).  Each key the
code reads is a partial lookup: a missing key raises `KeyError`. -/
structure Attrs where
  sample_rate : Option ℚ
  sample_size : Option ℚ
  daq_type : Option String
  num_channels : Option ℚ
  deriving DecidableEq, Repr

/-- An `h5py` dataset: an indexable sequence of chunks (`ds[i]`,
`ds.shape[0] = chunks.length`) plus the attribute record. -/
structure Dataset (α : Type) where
  chunks : List α
  attrs : Attrs
  deriving DecidableEq, Repr

/-- Worker-thread lifecycle from the spec's SamplingLoop state machine. -/
inductive RunState where
  | pausedState
  | runningState
  | stoppedState
  deriving DecidableEq, Repr

/-- The mutable attributes of a `VirtualDAQ` object (`__init__`, lines
21–52, plus the fields `load_dataset` adds). -/
structure DAQState (α : Type) where
  sample_rate : Option ℚ
  sample_chunk_size : Option ℚ
  daq_type : Option String
  num_channels : Option ℚ
  paused : Bool
  reset_flag : Bool
  sample_period : Option ℚ
  data : Option α
  ds : Option (Dataset α)
  sample_index : ℤ
  data_available : Bool
  reset_lock : Bool
  runState : RunState
  buffer : List (Option α × ℤ)
  ts_buffer : List (Option α)
  log : List String
  deriving DecidableEq, Repr

/-- State after `VirtualDAQ.__init__`: all attributes `None`/empty,
paused, index 0, events cleared, worker thread created but not
started. -/
def initState (α : Type) : DAQState α :=
  { sample_rate := none
    sample_chunk_size := none
    daq_type := none
    num_channels := none
    paused := true
    reset_flag := false
    sample_period := none
    data := none
    ds := none
    sample_index := 0
    data_available := false
    reset_lock := false
    runState := RunState.pausedState
    buffer := []
    ts_buffer := []
    log := [] }

/-- Python `a % b` on ints: `ZeroDivisionError` when `b = 0`, otherwise
the remainder with the divisor's sign (for `b > 0` this is `Int.emod`,
which is always in `[0, b)`). -/
def pymod (a b : ℤ) : Except PyErr ℤ :=
  if b = 0 then Except.error PyErr.zeroDivisionError else Except.ok (a % b)

/-- Python `a / b < 1.0` on ints (true division): `ZeroDivisionError`
when `b = 0`, otherwise the exact rational comparison `a / b < 1`,
decided without constructing the quotient (for a positive divisor it is
`a < b`, for a negative one `b < a`); `pyltone_eq_rat` below proves this
equal to the rational-number comparison. -/
def pyltone (a b : ℤ) : Except PyErr Bool :=
  if b = 0 then Except.error PyErr.zeroDivisionError
  else Except.ok (decide ((0 < b ∧ a < b) ∨ (b < 0 ∧ b < a)))

/-- Indexing `self.ds[i]` on an `h5py` dataset: wrap-around for negative indices,
`IndexError` outside `[-len, len)`. -/
def dsGet {α : Type} (d : Dataset α) (i : ℤ) : Except PyErr α :=
  let n : ℤ := d.chunks.length
  let j : ℤ := if i < 0 then i + n else i
  if 0 ≤ j ∧ j < n then
    match d.chunks.get? j.toNat with
    | some c => Except.ok c
    | none => Except.error PyErr.indexError
  else Except.error PyErr.indexError

/-- Modelled from the spec: `daq.DAQ.close` (the parent class is not in
the sources).  Per §4.3/§4.4 it stops the sampling loop and joins the
worker thread, leaving the loop in the terminal `Stopped` state. -/
def close {α : Type} (s : DAQState α) : DAQState α :=
  { s with runState := RunState.stoppedState }

/-- Modelled from the spec: `daq.DAQ.run` (the parent class is not in
the sources).  Per §4.4 it restarts playback with a freshly created
worker thread, entering the `Running` state. -/
def run {α : Type} (s : DAQState α) : DAQState α :=
  { s with runState := RunState.runningState }

/-- Modelled from the spec: `TimeSeries.append` (`pyratk.datatypes.
ts_data`, not in the sources).  Per §3 a `TimeSeries` of length 4096 is a
fixed-capacity circular buffer: append evicts the oldest entry once
full. -/
def tsAppend {β : Type} (buf : List β) (x : β) : List β :=
  if buf.length < 4096 then buf ++ [x] else (buf ++ [x]).drop 1

/-- Method `VirtualDAQ.reset` (lines 108–114): close, clear the pairs buffer,
rewind the index, set the reset flag, restart.  Note it does not touch
`ts_buffer`, `data`, or the `data_available` event. -/
def reset {α : Type} (s : DAQState α) : DAQState α :=
  let s1 := close s
  let s2 := { s1 with buffer := [] }
  let s3 := { s2 with sample_index := 0 }
  let s4 := { s3 with reset_flag := true }
  run s4

/-- An argument passed to `load_dataset`: either an actual `h5py` dataset
or any other Python object (which fails the `isinstance` check). -/
inductive PyObj (α : Type) where
  | dataset (d : Dataset α)
  | nonDataset
  deriving DecidableEq

/-- Method `VirtualDAQ.load_dataset` (lines 54–74).  The `else` branch executes
`raise (TypeError, msg, type(ds))`: in Python 3 raising a tuple itself
raises a `TypeError` ("exceptions must derive from BaseException"), so
the call fails with a `TypeError`-class error.  On the dataset branch the
attributes are loaded one by one, so a missing key leaves the partially
mutated state behind (`self.ds` in particular is already reassigned). -/
def load_dataset {α : Type} (s : DAQState α) (obj : PyObj α) :
    DAQState α × Option PyErr :=
  match obj with
  | PyObj.nonDataset => (s, some PyErr.typeError)
  | PyObj.dataset d =>
    let s1 := reset s
    let s2 := { s1 with ds := some d, sample_index := 0 }
    match d.attrs.sample_rate with
    | none => (s2, some PyErr.keyError)
    | some rate =>
      let s3 := { s2 with sample_rate := some rate }
      match d.attrs.sample_size with
      | none => (s3, some PyErr.keyError)
      | some size =>
        let s4 := { s3 with sample_chunk_size := some size }
        match d.attrs.daq_type with
        | none => (s4, some PyErr.keyError)
        | some t =>
          let s5 := { s4 with daq_type := some t }
          match d.attrs.num_channels with
          | none => (s5, some PyErr.keyError)
          | some nc =>
            let s6 := { s5 with num_channels := some nc }
            if rate = 0 then (s6, some PyErr.zeroDivisionError)
            else
              let s7 := { s6 with sample_period := some (size / rate) }
              ({ s7 with ts_buffer := [] }, none)

/-- Line 79: `print("(virtual_daq, get_samples) Getting new sample")`. -/
def printGetting {α : Type} (s : DAQState α) : DAQState α :=
  { s with log := s.log ++ ["(virtual_daq, get_samples) Getting new sample"] }

/-- Lines 81–84: `try: self.data = self.ds[self.sample_index] except
IndexError: print(...)`.  On success `self.data` is overwritten; on an
out-of-range index the error is printed and `self.data` keeps its stale
value. -/
def fetchUpdate {α : Type} (s : DAQState α) (d : Dataset α) : DAQState α :=
  match dsGet d s.sample_index with
  | Except.ok c => { s with data := some c }
  | Except.error _ =>
    { s with log := s.log ++ ["Invalid sample index: " ++ toString s.sample_index] }

/-- Lines 86–92: the pacing branch.  `loop = ±1` sleeps
`self.sample_period * playback_speed` (a `TypeError` if the period is
still `None`, a `ValueError` if the product is negative); `loop = 0`
prints the stride; any other value raises
`ValueError("Value must be -1, 0, or 1.")`. -/
def paceUpdate {α : Type} (s : DAQState α) (stride loop : ℤ) (speed : ℚ) :
    DAQState α × Option PyErr :=
  (if loop = 0 then { s with log := s.log ++ ["Stepped: " ++ toString stride] } else s,
   if loop = -1 ∨ loop = 1 then
     match s.sample_period with
     | none => some PyErr.typeError
     | some p => if p * speed < 0 then some PyErr.valueError else none
   else if loop = 0 then none
   else some PyErr.valueError)

/-- Line 94: `self.buffer.append((self.data, self.sample_index))` — a
plain Python list append. -/
def appendUpdate {α : Type} (s : DAQState α) : DAQState α :=
  { s with buffer := s.buffer ++ [(s.data, s.sample_index)] }

/-- Line 95: `self.ts_buffer.append(self.data)`. -/
def tsUpdate {α : Type} (s : DAQState α) : DAQState α :=
  { s with ts_buffer := tsAppend s.ts_buffer s.data }

/-- Line 97: `self.data_available.set()`. -/
def signalUpdate {α : Type} (s : DAQState α) : DAQState α :=
  { s with data_available := true }

/-- Method `VirtualDAQ.get_samples` (lines 76–106).  Returns the state at the
moment the call returns or raises, together with the returned boolean or
the escaping exception. -/
def get_samples {α : Type} (s : DAQState α) (stride loop : ℤ) (speed : ℚ) :
    DAQState α × Except PyErr Bool :=
  match s.ds with
  | none => (s, Except.error PyErr.runtimeError)
  | some d =>
    let sa := printGetting s
    let sb := fetchUpdate sa d
    match paceUpdate sb stride loop speed with
    | (sc, some e) => (sc, Except.error e)
    | (sc, none) =>
      let sd := appendUpdate sc
      let se := tsUpdate sd
      let sf := signalUpdate se
      match pymod (sf.sample_index + stride) (d.chunks.length : ℤ) with
      | Except.error e => (sf, Except.error e)
      | Except.ok i =>
        let sg := { sf with sample_index := i }
        match pymod (i + stride) (d.chunks.length : ℤ) with
        | Except.error e => (sg, Except.error e)
        | Except.ok j =>
          match pyltone j stride with
          | Except.error e => (sg, Except.error e)
          | Except.ok b => (sg, Except.ok b)

/-- The intermediate machine states of one successful `get_samples` tick,
in program order: entry, after the entry print, after the fetch attempt,
after the pacing branch, after the history append, after the time-series
append, after the signal set, after the cursor advance. -/
def tickTrace {α : Type} (s : DAQState α) (d : Dataset α) (stride loop : ℤ)
    (speed : ℚ) : List (DAQState α) :=
  let sa := printGetting s
  let sb := fetchUpdate sa d
  let sc := (paceUpdate sb stride loop speed).1
  let sd := appendUpdate sc
  let se := tsUpdate sd
  let sf := signalUpdate se
  let sg := { sf with sample_index := (sf.sample_index + stride) % (d.chunks.length : ℤ) }
  [s, sa, sb, sc, sd, se, sf, sg]

/-- A Boolean rendering of the spec's ChunkStore capability (§4.4/§6):
an indexable dataset carrying the full required attribute record.  This
definition follows the spec's words (not the code), for comparison with
the implementation's `isinstance` guard. -/
def satisfiesChunkStore {α : Type} (obj : PyObj α) : Bool :=
  match obj with
  | PyObj.nonDataset => false
  | PyObj.dataset d =>
    d.attrs.sample_rate.isSome && d.attrs.sample_size.isSome
      && d.attrs.daq_type.isSome && d.attrs.num_channels.isSome

/-! ## Concrete fixtures used by scenario conjuncts, counterexamples and
witnesses -/

/-- A complete attribute record with sample rate 1, chunk size 1. -/
def attrsAll : Attrs :=
  { sample_rate := some 1, sample_size := some 1
    daq_type := some "t", num_channels := some 1 }

/-- The spec §8 scenario store: three chunks C0, C1, C2. -/
def d3 : Dataset ℕ := { chunks := [20, 21, 22], attrs := attrsAll }

/-- State right after a successful `load_dataset` of `d3`. -/
def st0 : DAQState ℕ := (load_dataset (initState ℕ) (PyObj.dataset d3)).1

/-- Single-step ticks of the §8 scenario (stride 1, `loop = 0`). -/
def t1 : DAQState ℕ := (get_samples st0 1 0 1).1

def t2 : DAQState ℕ := (get_samples t1 1 0 1).1

def t3 : DAQState ℕ := (get_samples t2 1 0 1).1

def t4 : DAQState ℕ := (get_samples t3 1 0 1).1

/-- A one-chunk dataset. -/
def dOne : Dataset ℕ := { chunks := [9], attrs := attrsAll }

/-- A loaded state whose cursor is out of range for its one-chunk
dataset (the dataset "shrank or was corrupted externally"), holding a
stale previously fetched chunk. -/
def sC1 : DAQState ℕ :=
  { initState ℕ with ds := some dOne, sample_index := 5, data := some 7 }

/-- A freshly loaded one-chunk state with no chunk fetched yet. -/
def sC3 : DAQState ℕ := { initState ℕ with ds := some dOne }

/-- A state with a non-empty time-series buffer and history. -/
def sC6 : DAQState ℕ :=
  { initState ℕ with ts_buffer := [some 3], buffer := [(some 1, 0)], sample_index := 2 }

/-- The loaded three-chunk state with the cursor on the last chunk: a
stride-2 tick from here wraps past the start. -/
def sC4 : DAQState ℕ := { st0 with sample_index := 2 }

/-- An indexable dataset whose attribute record is entirely missing: it
does not satisfy the ChunkStore capability, yet it is an `h5py` dataset
and passes the `isinstance` check. -/
def dBad : Dataset ℕ :=
  { chunks := [0]
    attrs := { sample_rate := none, sample_size := none
               daq_type := none, num_channels := none } }

/-- One-chunk dataset used for the unbounded-growth iteration. -/
def dUnit : Dataset ℕ := { chunks := [7], attrs := attrsAll }

/-- State after loading `dUnit`. -/
def sUnit : DAQState ℕ := (load_dataset (initState ℕ) (PyObj.dataset dUnit)).1

/-- Iterated single-step ticks (stride 1, `loop = 0`) on the loaded
one-chunk dataset: each tick performs exactly one history append. -/
def tickN (n : ℕ) : DAQState ℕ :=
  (fun st => (get_samples st 1 0 1).1)^[n] sUnit

/-! ## Field-effect lemmas for the per-tick update functions -/

/-- The integer decision in `pyltone` is exactly Python's float
comparison `a / b < 1.0`, read as the exact comparison of the rational
quotient with 1. -/
theorem pyltone_eq_rat (a b : ℤ) (hb : b ≠ 0) :
    pyltone a b = Except.ok (decide ((a : ℚ) / (b : ℚ) < 1)) := by
  unfold pyltone
  rw [if_neg hb]
  congr 1
  rw [decide_eq_decide]
  rcases lt_or_gt_of_ne hb with hneg | hpos
  · have hbq : (b : ℚ) < 0 := by exact_mod_cast hneg
    rw [div_lt_one_of_neg hbq,
      show ((b : ℚ) < (a : ℚ)) ↔ b < a from by exact_mod_cast Iff.rfl]
    constructor
    · rintro (⟨h1, h2⟩ | ⟨h1, h2⟩)
      · exact absurd h1 (by omega)
      · exact h2
    · intro h
      exact Or.inr ⟨hneg, h⟩
  · have hbq : (0 : ℚ) < (b : ℚ) := by exact_mod_cast hpos
    rw [div_lt_one hbq,
      show ((a : ℚ) < (b : ℚ)) ↔ a < b from by exact_mod_cast Iff.rfl]
    constructor
    · rintro (⟨h1, h2⟩ | ⟨h1, h2⟩)
      · exact h2
      · exact absurd h1 (by omega)
    · intro h
      exact Or.inl ⟨hpos, h⟩

@[simp] theorem printGetting_ds {α : Type} (s : DAQState α) :
    (printGetting s).ds = s.ds := rfl

@[simp] theorem printGetting_sample_index {α : Type} (s : DAQState α) :
    (printGetting s).sample_index = s.sample_index := rfl

@[simp] theorem printGetting_data {α : Type} (s : DAQState α) :
    (printGetting s).data = s.data := rfl

@[simp] theorem printGetting_buffer {α : Type} (s : DAQState α) :
    (printGetting s).buffer = s.buffer := rfl

@[simp] theorem printGetting_ts_buffer {α : Type} (s : DAQState α) :
    (printGetting s).ts_buffer = s.ts_buffer := rfl

@[simp] theorem printGetting_data_available {α : Type} (s : DAQState α) :
    (printGetting s).data_available = s.data_available := rfl

@[simp] theorem printGetting_sample_period {α : Type} (s : DAQState α) :
    (printGetting s).sample_period = s.sample_period := rfl

@[simp] theorem fetchUpdate_ds {α : Type} (s : DAQState α) (d : Dataset α) :
    (fetchUpdate s d).ds = s.ds := by
  unfold fetchUpdate; cases dsGet d s.sample_index <;> rfl

@[simp] theorem fetchUpdate_sample_index {α : Type} (s : DAQState α) (d : Dataset α) :
    (fetchUpdate s d).sample_index = s.sample_index := by
  unfold fetchUpdate; cases dsGet d s.sample_index <;> rfl

@[simp] theorem fetchUpdate_buffer {α : Type} (s : DAQState α) (d : Dataset α) :
    (fetchUpdate s d).buffer = s.buffer := by
  unfold fetchUpdate; cases dsGet d s.sample_index <;> rfl

@[simp] theorem fetchUpdate_ts_buffer {α : Type} (s : DAQState α) (d : Dataset α) :
    (fetchUpdate s d).ts_buffer = s.ts_buffer := by
  unfold fetchUpdate; cases dsGet d s.sample_index <;> rfl

@[simp] theorem fetchUpdate_data_available {α : Type} (s : DAQState α) (d : Dataset α) :
    (fetchUpdate s d).data_available = s.data_available := by
  unfold fetchUpdate; cases dsGet d s.sample_index <;> rfl

@[simp] theorem fetchUpdate_sample_period {α : Type} (s : DAQState α) (d : Dataset α) :
    (fetchUpdate s d).sample_period = s.sample_period := by
  unfold fetchUpdate; cases dsGet d s.sample_index <;> rfl

theorem fetchUpdate_data_of_ok {α : Type} {s : DAQState α} {d : Dataset α} {c : α}
    (h : dsGet d s.sample_index = Except.ok c) :
    (fetchUpdate s d).data = some c := by
  unfold fetchUpdate; rw [h]

theorem fetchUpdate_data_of_error {α : Type} {s : DAQState α} {d : Dataset α} {e : PyErr}
    (h : dsGet d s.sample_index = Except.error e) :
    (fetchUpdate s d).data = s.data := by
  unfold fetchUpdate; rw [h]

theorem fetchUpdate_log_of_error {α : Type} {s : DAQState α} {d : Dataset α} {e : PyErr}
    (h : dsGet d s.sample_index = Except.error e) :
    (fetchUpdate s d).log
      = s.log ++ ["Invalid sample index: " ++ toString s.sample_index] := by
  unfold fetchUpdate; rw [h]

@[simp] theorem paceUpdate_fst_ds {α : Type} (s : DAQState α) (stride loop : ℤ) (speed : ℚ) :
    ((paceUpdate s stride loop speed).1).ds = s.ds := by
  unfold paceUpdate; split <;> rfl

@[simp] theorem paceUpdate_fst_sample_index {α : Type} (s : DAQState α) (stride loop : ℤ) (speed : ℚ) :
    ((paceUpdate s stride loop speed).1).sample_index = s.sample_index := by
  unfold paceUpdate; split <;> rfl

@[simp] theorem paceUpdate_fst_data {α : Type} (s : DAQState α) (stride loop : ℤ) (speed : ℚ) :
    ((paceUpdate s stride loop speed).1).data = s.data := by
  unfold paceUpdate; split <;> rfl

@[simp] theorem paceUpdate_fst_buffer {α : Type} (s : DAQState α) (stride loop : ℤ) (speed : ℚ) :
    ((paceUpdate s stride loop speed).1).buffer = s.buffer := by
  unfold paceUpdate; split <;> rfl

@[simp] theorem paceUpdate_fst_ts_buffer {α : Type} (s : DAQState α) (stride loop : ℤ) (speed : ℚ) :
    ((paceUpdate s stride loop speed).1).ts_buffer = s.ts_buffer := by
  unfold paceUpdate; split <;> rfl

@[simp] theorem paceUpdate_fst_data_available {α : Type} (s : DAQState α) (stride loop : ℤ) (speed : ℚ) :
    ((paceUpdate s stride loop speed).1).data_available = s.data_available := by
  unfold paceUpdate; split <;> rfl

theorem paceUpdate_fst_log_mem {α : Type} {x : String} (s : DAQState α)
    (stride loop : ℤ) (speed : ℚ) (h : x ∈ s.log) :
    x ∈ ((paceUpdate s stride loop speed).1).log := by
  unfold paceUpdate
  split
  · simp [List.mem_append]; left; exact h
  · exact h

@[simp] theorem appendUpdate_ds {α : Type} (s : DAQState α) :
    (appendUpdate s).ds = s.ds := rfl

@[simp] theorem appendUpdate_sample_index {α : Type} (s : DAQState α) :
    (appendUpdate s).sample_index = s.sample_index := rfl

@[simp] theorem appendUpdate_data {α : Type} (s : DAQState α) :
    (appendUpdate s).data = s.data := rfl

@[simp] theorem appendUpdate_ts_buffer {α : Type} (s : DAQState α) :
    (appendUpdate s).ts_buffer = s.ts_buffer := rfl

@[simp] theorem appendUpdate_data_available {α : Type} (s : DAQState α) :
    (appendUpdate s).data_available = s.data_available := rfl

@[simp] theorem appendUpdate_buffer {α : Type} (s : DAQState α) :
    (appendUpdate s).buffer = s.buffer ++ [(s.data, s.sample_index)] := rfl

@[simp] theorem tsUpdate_ds {α : Type} (s : DAQState α) :
    (tsUpdate s).ds = s.ds := rfl

@[simp] theorem tsUpdate_sample_index {α : Type} (s : DAQState α) :
    (tsUpdate s).sample_index = s.sample_index := rfl

@[simp] theorem tsUpdate_data {α : Type} (s : DAQState α) :
    (tsUpdate s).data = s.data := rfl

@[simp] theorem tsUpdate_buffer {α : Type} (s : DAQState α) :
    (tsUpdate s).buffer = s.buffer := rfl

@[simp] theorem tsUpdate_data_available {α : Type} (s : DAQState α) :
    (tsUpdate s).data_available = s.data_available := rfl

@[simp] theorem appendUpdate_log {α : Type} (s : DAQState α) :
    (appendUpdate s).log = s.log := rfl

@[simp] theorem tsUpdate_log {α : Type} (s : DAQState α) :
    (tsUpdate s).log = s.log := rfl

@[simp] theorem signalUpdate_log {α : Type} (s : DAQState α) :
    (signalUpdate s).log = s.log := rfl

@[simp] theorem signalUpdate_ds {α : Type} (s : DAQState α) :
    (signalUpdate s).ds = s.ds := rfl

@[simp] theorem signalUpdate_sample_index {α : Type} (s : DAQState α) :
    (signalUpdate s).sample_index = s.sample_index := rfl

@[simp] theorem signalUpdate_data {α : Type} (s : DAQState α) :
    (signalUpdate s).data = s.data := rfl

@[simp] theorem signalUpdate_buffer {α : Type} (s : DAQState α) :
    (signalUpdate s).buffer = s.buffer := rfl

@[simp] theorem signalUpdate_data_available {α : Type} (s : DAQState α) :
    (signalUpdate s).data_available = true := rfl

/-- On a loaded dataset, when the pacing branch does not raise and the
dataset is non-empty, `get_samples` runs the whole tick: print, fetch
attempt, pacing, history append, time-series append, signal, cursor
advance, and returns the more-data comparison (which can still raise
`ZeroDivisionError` when the stride is 0). -/
theorem get_samples_eq {α : Type} (s : DAQState α) (d : Dataset α)
    (stride loop : ℤ) (speed : ℚ)
    (hds : s.ds = some d)
    (hpace : (paceUpdate (fetchUpdate (printGetting s) d) stride loop speed).2 = none)
    (hlen : (d.chunks.length : ℤ) ≠ 0) :
    get_samples s stride loop speed =
      ({ signalUpdate (tsUpdate (appendUpdate
            ((paceUpdate (fetchUpdate (printGetting s) d) stride loop speed).1))) with
          sample_index := (s.sample_index + stride) % (d.chunks.length : ℤ) },
        pyltone (((s.sample_index + stride) % (d.chunks.length : ℤ) + stride)
            % (d.chunks.length : ℤ)) stride) := by
  rcases hpe : paceUpdate (fetchUpdate (printGetting s) d) stride loop speed with ⟨sc, e⟩
  have hsc : sc = (paceUpdate (fetchUpdate (printGetting s) d) stride loop speed).1 := by
    rw [hpe]
  have he : e = none := by rw [← hpace, hpe]
  subst he
  have hscidx : sc.sample_index = s.sample_index := by rw [hsc]; simp
  simp only [get_samples, hds]
  rw [hpe]
  simp only [pymod, if_neg hlen]
  simp only [signalUpdate_sample_index, tsUpdate_sample_index, appendUpdate_sample_index, hscidx]
  cases h2 : pyltone (((s.sample_index + stride) % (d.chunks.length : ℤ) + stride)
      % (d.chunks.length : ℤ)) stride <;> rfl

/-- C7: every `get_samples` call made while no dataset is loaded fails
with the `NotReady`-class error (`RuntimeError`) and mutates no state,
whatever the stride, loop mode and playback speed; this holds for every
state whose `ds` field is unset, hence on every such call until a
`load_dataset` succeeds. -/
theorem C7_not_ready {α : Type} (s : DAQState α) (stride loop : ℤ) (speed : ℚ)
    (hds : s.ds = none) :
    get_samples s stride loop speed = (s, Except.error PyErr.runtimeError) := by
  unfold get_samples
  rw [hds]

theorem C7_witness :
    (initState ℕ).ds = none
      ∧ get_samples (initState ℕ) 1 (-1) 1 = (initState ℕ, Except.error PyErr.runtimeError) :=
  ⟨rfl, C7_not_ready (initState ℕ) 1 (-1) 1 rfl⟩

/-- C6 counterexample: `reset` does not clear all buffers.  On a state
whose time-series buffer is non-empty, `reset` leaves `ts_buffer`
untouched (line 111 clears only `self.buffer`), refuting "clears the
history and all buffers". -/
theorem C6_counterexample :
    (reset sC6).ts_buffer = [some 3] ∧ ([some 3] : List (Option ℕ)) ≠ [] := by
  exact ⟨rfl, by decide⟩

/-- C6 amended: `reset` is idempotent, clears the (chunk, index) history
list, rewinds the cursor to 0, sets the reset flag and restarts playback
(`Running`, via the spec-modelled `close`/`run` of the parent class); but
it leaves the `ts_buffer` time-series buffer unchanged rather than
clearing all buffers. -/
theorem C6_amended {α : Type} (s : DAQState α) :
    reset (reset s) = reset s
      ∧ (reset s).buffer = []
      ∧ (reset s).sample_index = 0
      ∧ (reset s).reset_flag = true
      ∧ (reset s).runState = RunState.runningState
      ∧ (reset s).ts_buffer = s.ts_buffer :=
  ⟨rfl, rfl, rfl, rfl, rfl, rfl⟩

theorem C6_witness :
    reset (reset sC6) = reset sC6
      ∧ (reset sC6).buffer = []
      ∧ (reset sC6).sample_index = 0
      ∧ (reset sC6).reset_flag = true
      ∧ (reset sC6).runState = RunState.runningState
      ∧ (reset sC6).ts_buffer = sC6.ts_buffer :=
  C6_amended sC6

/-- C9 counterexample: `dBad` is an `h5py` dataset that does not satisfy
the ChunkStore capability (its required attribute record is missing), yet
`load_dataset` fails with `KeyError` — not a `TypeError`-class error —
and has already loaded the dataset (`self.ds` is reassigned before the
attribute lookups). -/
theorem C9_counterexample :
    satisfiesChunkStore (PyObj.dataset dBad) = false
      ∧ (load_dataset (initState ℕ) (PyObj.dataset dBad)).2 = some PyErr.keyError
      ∧ (load_dataset (initState ℕ) (PyObj.dataset dBad)).1.ds = some dBad
      ∧ some PyErr.keyError ≠ some PyErr.typeError := by
  refine ⟨rfl, rfl, rfl, by decide⟩

/-- C9 amended: an argument that is not an `h5py` dataset fails the
`isinstance` check and `load_dataset` raises a `TypeError`-class error
without loading anything; but an `h5py` dataset lacking a required
attribute (so still not satisfying the ChunkStore capability) passes the
type check, is installed as the current dataset, and the call then fails
with a `KeyError`-class error instead. -/
theorem C9_amended {α : Type} :
    (∀ s : DAQState α, load_dataset s PyObj.nonDataset = (s, some PyErr.typeError))
      ∧ (∀ (s : DAQState α) (d : Dataset α), d.attrs.sample_rate = none →
          satisfiesChunkStore (PyObj.dataset d) = false
            ∧ (load_dataset s (PyObj.dataset d)).2 = some PyErr.keyError
            ∧ (load_dataset s (PyObj.dataset d)).1.ds = some d) := by
  constructor
  · intro s; rfl
  · intro s d h
    refine ⟨?_, ?_, ?_⟩
    · simp [satisfiesChunkStore, h]
    · simp [load_dataset, h]
    · simp [load_dataset, h]

theorem C9_witness :
    load_dataset (initState ℕ) PyObj.nonDataset = (initState ℕ, some PyErr.typeError)
      ∧ dBad.attrs.sample_rate = none
      ∧ (satisfiesChunkStore (PyObj.dataset dBad) = false
          ∧ (load_dataset (initState ℕ) (PyObj.dataset dBad)).2 = some PyErr.keyError
          ∧ (load_dataset (initState ℕ) (PyObj.dataset dBad)).1.ds = some dBad) :=
  ⟨(@C9_amended ℕ).1 (initState ℕ), rfl, (@C9_amended ℕ).2 (initState ℕ) dBad rfl⟩

/-- C3 counterexample: with a dataset loaded and no chunk fetched yet,
`get_samples(loop=5)` raises the `InvalidArgument`-class `ValueError`,
but the fetch has already been performed: `self.data` changed from
`None` to the chunk at the cursor, refuting "performs no fetch …
leaving … all other loop state unchanged". -/
theorem C3_counterexample :
    (get_samples sC3 1 5 1).2 = Except.error PyErr.valueError
      ∧ (get_samples sC3 1 5 1).1.data = some 9
      ∧ sC3.data = none :=
  ⟨rfl, rfl, rfl⟩

/-- C3 amended: for every loaded dataset and every loop value other than
-1, 0 and 1, `get_samples` fails with the `InvalidArgument`-class
`ValueError` and performs no append, no signal raise and no cursor
advance, leaving history, time-series buffer, signal and cursor
unchanged; however the fetch at the current cursor is performed first
(lines 81–84 precede the loop-mode check), so `self.data` is updated to
the fetched chunk before the error is raised. -/
theorem C3_amended {α : Type} (s : DAQState α) (d : Dataset α)
    (stride loop : ℤ) (speed : ℚ) (hds : s.ds = some d)
    (hm1 : loop ≠ -1) (h0 : loop ≠ 0) (hp1 : loop ≠ 1) :
    get_samples s stride loop speed
        = (fetchUpdate (printGetting s) d, Except.error PyErr.valueError)
      ∧ (get_samples s stride loop speed).1.buffer = s.buffer
      ∧ (get_samples s stride loop speed).1.data_available = s.data_available
      ∧ (get_samples s stride loop speed).1.sample_index = s.sample_index
      ∧ (get_samples s stride loop speed).1.ts_buffer = s.ts_buffer := by
  have hor : ¬(loop = -1 ∨ loop = 1) := by tauto
  have heq : get_samples s stride loop speed
      = (fetchUpdate (printGetting s) d, Except.error PyErr.valueError) := by
    simp only [get_samples, hds, paceUpdate, if_neg hor, if_neg h0]
  refine ⟨heq, ?_, ?_, ?_, ?_⟩ <;> rw [heq] <;> simp

theorem C3_witness :
    sC3.ds = some dOne
      ∧ (get_samples sC3 1 5 1
            = (fetchUpdate (printGetting sC3) dOne, Except.error PyErr.valueError)
          ∧ (get_samples sC3 1 5 1).1.buffer = sC3.buffer
          ∧ (get_samples sC3 1 5 1).1.data_available = sC3.data_available
          ∧ (get_samples sC3 1 5 1).1.sample_index = sC3.sample_index
          ∧ (get_samples sC3 1 5 1).1.ts_buffer = sC3.ts_buffer) :=
  ⟨rfl, C3_amended sC3 dOne 1 5 1 rfl (by decide) (by decide) (by decide)⟩

/-- C10: with a dataset loaded, a valid cursor and stride 0 in
single-step mode (`loop = 0`), `get_samples` raises `ZeroDivisionError`
from the more-data computation `… % shape[0] / stride`, and the failure
occurs only after the fetched chunk has been appended to history and the
data-available signal has been set, while the cursor is unchanged
because `(index + 0) mod total = index`. -/
theorem C10_zero_stride {α : Type} (s : DAQState α) (d : Dataset α) (c : α)
    (speed : ℚ) (hds : s.ds = some d)
    (hfetch : dsGet d s.sample_index = Except.ok c)
    (h0 : 0 ≤ s.sample_index) (hlt : s.sample_index < (d.chunks.length : ℤ)) :
    (get_samples s 0 0 speed).2 = Except.error PyErr.zeroDivisionError
      ∧ (get_samples s 0 0 speed).1.buffer = s.buffer ++ [(some c, s.sample_index)]
      ∧ (get_samples s 0 0 speed).1.data_available = true
      ∧ (get_samples s 0 0 speed).1.sample_index = s.sample_index := by
  have hlen : (d.chunks.length : ℤ) ≠ 0 := by omega
  have hpace : (paceUpdate (fetchUpdate (printGetting s) d) 0 0 speed).2 = none := by
    simp [paceUpdate]
  have hdata : (fetchUpdate (printGetting s) d).data = some c :=
    fetchUpdate_data_of_ok hfetch
  rw [get_samples_eq s d 0 0 speed hds hpace hlen]
  refine ⟨by simp [pyltone], ?_, by simp, by simp [Int.emod_eq_of_lt h0 hlt]⟩
  simp [hdata]

theorem C10_witness :
    st0.ds = some d3
      ∧ dsGet d3 st0.sample_index = Except.ok 20
      ∧ ((get_samples st0 0 0 1).2 = Except.error PyErr.zeroDivisionError
          ∧ (get_samples st0 0 0 1).1.buffer = st0.buffer ++ [(some 20, st0.sample_index)]
          ∧ (get_samples st0 0 0 1).1.data_available = true
          ∧ (get_samples st0 0 0 1).1.sample_index = st0.sample_index) :=
  ⟨rfl, rfl, C10_zero_stride st0 d3 20 1 rfl rfl (by decide) (by decide)⟩

/-- C1 counterexample: on a tick whose fetch raises `IndexError` (cursor
5 on a one-chunk dataset), the call indeed does not raise — but the
append and the data-available signal are NOT skipped: the stale pair
`(7, 5)` is appended to the empty history and the signal is set,
refuting "the append and data-available signal are skipped for that
tick". -/
theorem C1_counterexample :
    dsGet dOne sC1.sample_index = Except.error PyErr.indexError
      ∧ (get_samples sC1 1 0 1).2 = Except.ok true
      ∧ sC1.buffer = []
      ∧ (get_samples sC1 1 0 1).1.buffer = [(some 7, 5)]
      ∧ sC1.data_available = false
      ∧ (get_samples sC1 1 0 1).1.data_available = true := by
  refine ⟨rfl, by decide, rfl, ?_, rfl, ?_⟩ <;> decide

/-- C1 amended: if the fetch at the current cursor raises `IndexError`
on a `get_samples` tick (and the pacing and more-data computations do
not themselves raise), the error is reported (printed), the call does
not raise to its caller, and the loop continues — but the append and
data-available signal are NOT skipped: the stale previously fetched
chunk `self.data` is appended to history together with the current
index, and the signal is set as on a normal tick. -/
theorem C1_amended {α : Type} (s : DAQState α) (d : Dataset α)
    (stride loop : ℤ) (speed : ℚ)
    (hds : s.ds = some d)
    (hfail : dsGet d s.sample_index = Except.error PyErr.indexError)
    (hpace : (paceUpdate (fetchUpdate (printGetting s) d) stride loop speed).2 = none)
    (hlen : (d.chunks.length : ℤ) ≠ 0) (hstride : stride ≠ 0) :
    (∃ b, (get_samples s stride loop speed).2 = Except.ok b)
      ∧ (get_samples s stride loop speed).1.buffer
          = s.buffer ++ [(s.data, s.sample_index)]
      ∧ (get_samples s stride loop speed).1.data_available = true
      ∧ (get_samples s stride loop speed).1.data = s.data
      ∧ ("Invalid sample index: " ++ toString s.sample_index)
          ∈ (get_samples s stride loop speed).1.log := by
  have hdata : (fetchUpdate (printGetting s) d).data = s.data :=
    fetchUpdate_data_of_error hfail
  rw [get_samples_eq s d stride loop speed hds hpace hlen]
  refine ⟨?_, ?_, ?_, ?_, ?_⟩
  · simp only [pyltone, if_neg hstride]
    exact ⟨_, rfl⟩
  · simp [hdata]
  · simp
  · simp [hdata]
  · simp only [signalUpdate_log, tsUpdate_log, appendUpdate_log]
    apply paceUpdate_fst_log_mem
    have hlog : (fetchUpdate (printGetting s) d).log
        = (printGetting s).log
            ++ ["Invalid sample index: " ++ toString (printGetting s).sample_index] :=
      fetchUpdate_log_of_error hfail
    rw [hlog]
    simp

theorem C1_witness :
    sC1.ds = some dOne
      ∧ dsGet dOne sC1.sample_index = Except.error PyErr.indexError
      ∧ ((∃ b, (get_samples sC1 1 0 1).2 = Except.ok b)
          ∧ (get_samples sC1 1 0 1).1.buffer
              = sC1.buffer ++ [(sC1.data, sC1.sample_index)]
          ∧ (get_samples sC1 1 0 1).1.data_available = true
          ∧ (get_samples sC1 1 0 1).1.data = sC1.data
          ∧ ("Invalid sample index: " ++ toString sC1.sample_index)
              ∈ (get_samples sC1 1 0 1).1.log) :=
  ⟨rfl, rfl, C1_amended sC1 dOne 1 0 1 rfl rfl (by decide) (by decide) (by decide)⟩

/-- C5: on every successful tick the cursor advances as
`index = (index + stride) mod total_chunks`, so it always stays in
`[0, total_chunks)`; and in the §8 scenario (three chunks, stride 1,
single-step mode) the three ticks read indices 0, 1, 2 in order — the
history pairs record chunks C0, C1, C2 with those indices — the cursor
wraps to 0 after the third tick, and the fourth tick reads index 0
(chunk C0) again. -/
theorem C5_cursor_advance {α : Type} (s : DAQState α) (d : Dataset α)
    (stride loop : ℤ) (speed : ℚ)
    (hds : s.ds = some d)
    (hpace : (paceUpdate (fetchUpdate (printGetting s) d) stride loop speed).2 = none)
    (hlen : 0 < (d.chunks.length : ℤ)) :
    ((get_samples s stride loop speed).1.sample_index
        = (s.sample_index + stride) % (d.chunks.length : ℤ)
      ∧ 0 ≤ (get_samples s stride loop speed).1.sample_index
      ∧ (get_samples s stride loop speed).1.sample_index < (d.chunks.length : ℤ))
      ∧ (t1.data = some 20 ∧ t1.sample_index = 1
        ∧ t2.data = some 21 ∧ t2.sample_index = 2
        ∧ t3.data = some 22 ∧ t3.sample_index = 0
        ∧ t3.buffer = [(some 20, 0), (some 21, 1), (some 22, 2)]
        ∧ t4.data = some 20) := by
  constructor
  · rw [get_samples_eq s d stride loop speed hds hpace (by omega)]
    refine ⟨by simp, ?_, ?_⟩
    · exact Int.emod_nonneg _ (by omega)
    · exact Int.emod_lt_of_pos _ hlen
  · exact ⟨rfl, rfl, rfl, rfl, rfl, rfl, rfl, rfl⟩

theorem C5_witness :
    st0.ds = some d3
      ∧ (((get_samples st0 1 0 1).1.sample_index
            = (st0.sample_index + 1) % (d3.chunks.length : ℤ)
          ∧ 0 ≤ (get_samples st0 1 0 1).1.sample_index
          ∧ (get_samples st0 1 0 1).1.sample_index < (d3.chunks.length : ℤ))
        ∧ (t1.data = some 20 ∧ t1.sample_index = 1
          ∧ t2.data = some 21 ∧ t2.sample_index = 2
          ∧ t3.data = some 22 ∧ t3.sample_index = 0
          ∧ t3.buffer = [(some 20, 0), (some 21, 1), (some 22, 2)]
          ∧ t4.data = some 20)) :=
  ⟨rfl, C5_cursor_advance st0 d3 1 0 1 rfl (by decide) (by decide)⟩

/-- Adding the modulus to the dividend leaves an integer remainder
unchanged. -/
theorem int_add_emod_self (a b : ℤ) : (a + b) % b = a % b := by
  have h := Int.add_mul_emod_self_left a b 1
  rw [mul_one] at h
  exact h

/-- C4 counterexample: on the three-chunk store with stride 2, the tick
from index 2 wraps past the start (2 + 2 ≥ 3, post-advance index 1), yet
the returned more-data boolean is `true`, refuting "it is false for the
boundary call once the cursor wraps past the start" (the boundary
condition only behaves as claimed when the stride divides the chunk
count, as §9 of the spec itself warns). -/
theorem C4_counterexample :
    (d3.chunks.length : ℤ) ≤ sC4.sample_index + 2
      ∧ (get_samples sC4 2 0 1).1.sample_index = 1
      ∧ (get_samples sC4 2 0 1).2 = Except.ok true := by
  refine ⟨by decide, rfl, by decide⟩

/-- C4 amended: on every successful tick the returned boolean equals the
condition "fractional position `((post-advance index + stride) mod
total) / stride < 1.0`" computed from the post-advance cursor and the
stride, and the boundary call that wraps past the start returns `false`
whenever the (positive) stride divides `total_chunks` and is smaller
than it; for other strides the wrap-around call may return `true`. -/
theorem C4_amended {α : Type} (s : DAQState α) (d : Dataset α)
    (stride loop : ℤ) (speed : ℚ)
    (hds : s.ds = some d)
    (hpace : (paceUpdate (fetchUpdate (printGetting s) d) stride loop speed).2 = none)
    (hlen : 0 < (d.chunks.length : ℤ)) (hstride : stride ≠ 0) :
    (get_samples s stride loop speed).2
        = Except.ok (decide
            (((((get_samples s stride loop speed).1.sample_index + stride)
                  % (d.chunks.length : ℤ) : ℤ) : ℚ) / (stride : ℚ) < 1))
      ∧ (0 < stride → stride ∣ (d.chunks.length : ℤ)
          → stride < (d.chunks.length : ℤ)
          → 0 ≤ s.sample_index → s.sample_index < (d.chunks.length : ℤ)
          → (d.chunks.length : ℤ) ≤ s.sample_index + stride
          → (get_samples s stride loop speed).2 = Except.ok false) := by
  have heq := get_samples_eq s d stride loop speed hds hpace (by omega)
  constructor
  · rw [heq]
    exact pyltone_eq_rat _ _ hstride
  · intro h1 h2 h3 h4 h5 h6
    obtain ⟨k, hk⟩ := h2
    have hk1 : 1 < k := by
      by_contra hle
      push_neg at hle
      nlinarith
    have h2s : 2 * stride ≤ (d.chunks.length : ℤ) := by nlinarith
    have hmod1 : (s.sample_index + stride) % (d.chunks.length : ℤ)
        = s.sample_index + stride - (d.chunks.length : ℤ) := by
      have e1 : (s.sample_index + stride - (d.chunks.length : ℤ))
            + (d.chunks.length : ℤ) = s.sample_index + stride := by ring
      conv_lhs => rw [← e1]
      rw [int_add_emod_self]
      apply Int.emod_eq_of_lt <;> omega
    have hmod2 : ((s.sample_index + stride - (d.chunks.length : ℤ)) + stride)
          % (d.chunks.length : ℤ)
        = s.sample_index + stride - (d.chunks.length : ℤ) + stride := by
      apply Int.emod_eq_of_lt <;> omega
    rw [heq]
    simp only [pyltone, if_neg hstride, Except.ok.injEq, hmod1, hmod2]
    rw [decide_eq_false_iff_not]
    omega

theorem C4_witness :
    sC4.ds = some d3
      ∧ ((get_samples sC4 2 0 1).2
            = Except.ok (decide
                (((((get_samples sC4 2 0 1).1.sample_index + 2)
                      % (d3.chunks.length : ℤ) : ℤ) : ℚ) / ((2 : ℤ) : ℚ) < 1))
          ∧ (0 < (2 : ℤ) → (2 : ℤ) ∣ (d3.chunks.length : ℤ)
              → (2 : ℤ) < (d3.chunks.length : ℤ)
              → 0 ≤ sC4.sample_index → sC4.sample_index < (d3.chunks.length : ℤ)
              → (d3.chunks.length : ℤ) ≤ sC4.sample_index + 2
              → (get_samples sC4 2 0 1).2 = Except.ok false)) :=
  ⟨rfl, C4_amended sC4 d3 2 0 1 rfl (by decide) (by decide) (by decide)⟩

/-- One single-step tick on the loaded one-chunk dataset keeps the
dataset and cursor and grows the history list by exactly one entry. -/
theorem tick_step (st : DAQState ℕ) (hds : st.ds = some dUnit)
    (hidx : st.sample_index = 0) :
    (get_samples st 1 0 1).1.ds = some dUnit
      ∧ (get_samples st 1 0 1).1.sample_index = 0
      ∧ (get_samples st 1 0 1).1.buffer.length = st.buffer.length + 1 := by
  have hpace : (paceUpdate (fetchUpdate (printGetting st) dUnit) 1 0 1).2 = none := by
    simp [paceUpdate]
  rw [get_samples_eq st dUnit 1 0 1 hds hpace (by decide)]
  refine ⟨by simp [hds], ?_, by simp⟩
  have h0 : (st.sample_index + 1) % ((dUnit.chunks.length : ℕ) : ℤ) = 0 := by
    rw [hidx]; decide
  exact h0

/-- After `n` single-step ticks on the loaded one-chunk dataset the
history list holds exactly `n` entries: nothing is ever evicted. -/
theorem tickN_invariant (n : ℕ) :
    (tickN n).ds = some dUnit ∧ (tickN n).sample_index = 0
      ∧ (tickN n).buffer.length = n := by
  induction n with
  | zero => exact ⟨rfl, rfl, rfl⟩
  | succ n ih =>
    have hit : tickN (n + 1) = (get_samples (tickN n) 1 0 1).1 := by
      unfold tickN
      rw [Function.iterate_succ_apply']
    have hstep := tick_step (tickN n) ih.1 ih.2.1
    rw [hit]
    exact ⟨hstep.1, hstep.2.1, by rw [hstep.2.2, ih.2.2]⟩

/-- C2 counterexample: the history of (chunk, source_index) pairs is the
plain Python list `self.buffer`, which never evicts: after 4097 appends
(one per tick) its length is 4097, not `min 4097 4096`, refuting the
fixed-capacity bound with the code's only capacity 4096. -/
theorem C2_counterexample :
    (tickN 4097).buffer.length = 4097 ∧ (4097 : ℕ) ≠ min 4097 4096 :=
  ⟨(tickN_invariant 4097).2.2, by decide⟩

/-- C2 amended: `self.buffer`, the history of (chunk, source_index)
pairs, is an unbounded list: every successful tick appends one pair (the
freshly fetched chunk with the pre-advance cursor) and nothing is ever
evicted, so after N appends the length is N — all N entries are retained
in append order.  (Only the separate chunk-only `ts_buffer` TimeSeries
is capacity-bounded, per the spec model of the external class.) -/
theorem C2_amended {α : Type} (s : DAQState α) (d : Dataset α)
    (stride loop : ℤ) (speed : ℚ)
    (hds : s.ds = some d)
    (hpace : (paceUpdate (fetchUpdate (printGetting s) d) stride loop speed).2 = none)
    (hlen : (d.chunks.length : ℤ) ≠ 0) :
    (get_samples s stride loop speed).1.buffer
        = s.buffer ++ [((fetchUpdate (printGetting s) d).data, s.sample_index)]
      ∧ ∀ n : ℕ, (tickN n).buffer.length = n := by
  constructor
  · rw [get_samples_eq s d stride loop speed hds hpace hlen]
    simp
  · intro n
    exact (tickN_invariant n).2.2

theorem C2_witness :
    st0.ds = some d3
      ∧ ((get_samples st0 1 0 1).1.buffer
            = st0.buffer ++ [((fetchUpdate (printGetting st0) d3).data, st0.sample_index)]
          ∧ ∀ n : ℕ, (tickN n).buffer.length = n) :=
  ⟨rfl, C2_amended st0 d3 1 0 1 rfl (by decide) (by decide)⟩

/-- C8: on every `get_samples` tick that raises the data-available
signal (here: a successful tick started with the signal consumed), the
signal is set only after the corresponding chunk has been appended: in
the program-order trace of intermediate states, every state in which the
signal is set already holds the pair appended this tick, so an observer
of the signal finds that chunk in history; moreover the state returned
by `get_samples` is the final trace state, with the signal set and the
pair present. -/
theorem C8_signal_after_append {α : Type} (s : DAQState α) (d : Dataset α)
    (c : α) (stride loop : ℤ) (speed : ℚ)
    (hds : s.ds = some d) (hsig : s.data_available = false)
    (hfetch : dsGet d s.sample_index = Except.ok c)
    (hpace : (paceUpdate (fetchUpdate (printGetting s) d) stride loop speed).2 = none)
    (hlen : (d.chunks.length : ℤ) ≠ 0) :
    (∀ st ∈ tickTrace s d stride loop speed,
        st.data_available = true → (some c, s.sample_index) ∈ st.buffer)
      ∧ (get_samples s stride loop speed).1 ∈ tickTrace s d stride loop speed
      ∧ (get_samples s stride loop speed).1.data_available = true
      ∧ (some c, s.sample_index) ∈ (get_samples s stride loop speed).1.buffer := by
  have hdata : (fetchUpdate (printGetting s) d).data = some c :=
    fetchUpdate_data_of_ok hfetch
  have heq := get_samples_eq s d stride loop speed hds hpace hlen
  refine ⟨?_, ?_, ?_, ?_⟩
  · intro st hst htrue
    simp only [tickTrace, List.mem_cons, List.not_mem_nil, or_false] at hst
    rcases hst with h | h | h | h | h | h | h | h <;> subst h
    · rw [hsig] at htrue
      exact absurd htrue (by simp)
    · simp only [printGetting_data_available, hsig] at htrue
      exact absurd htrue (by simp)
    · simp only [fetchUpdate_data_available, printGetting_data_available, hsig] at htrue
      exact absurd htrue (by simp)
    · simp only [paceUpdate_fst_data_available, fetchUpdate_data_available,
        printGetting_data_available, hsig] at htrue
      exact absurd htrue (by simp)
    · simp only [appendUpdate_data_available, paceUpdate_fst_data_available,
        fetchUpdate_data_available, printGetting_data_available, hsig] at htrue
      exact absurd htrue (by simp)
    · simp only [tsUpdate_data_available, appendUpdate_data_available,
        paceUpdate_fst_data_available, fetchUpdate_data_available,
        printGetting_data_available, hsig] at htrue
      exact absurd htrue (by simp)
    · simp [hdata]
    · simp [hdata]
  · rw [heq]
    simp [tickTrace]
  · rw [heq]
    simp
  · rw [heq]
    simp [hdata]

theorem C8_witness :
    st0.ds = some d3
      ∧ st0.data_available = false
      ∧ dsGet d3 st0.sample_index = Except.ok 20
      ∧ ((∀ st ∈ tickTrace st0 d3 1 0 1,
            st.data_available = true → (some 20, st0.sample_index) ∈ st.buffer)
          ∧ (get_samples st0 1 0 1).1 ∈ tickTrace st0 d3 1 0 1
          ∧ (get_samples st0 1 0 1).1.data_available = true
          ∧ (some 20, st0.sample_index) ∈ (get_samples st0 1 0 1).1.buffer) :=
  ⟨rfl, rfl, rfl,
    C8_signal_after_append st0 d3 20 1 0 1 rfl rfl rfl (by decide) (by decide)⟩

end VirtualDAQ
